import Mathlib

/-!
Verification development for the NFO tracker dashboard.

The repository is a TypeScript field-operations dashboard.  The parts with
real semantics are embedded here:

* `app/lib/nfoHelpers.ts` (src/unnamed/part_008, third section): the
  distance-label formatter, site lookup, nearest-site search and the
  haversine distance.
* `app/lib/routing.ts` (src/unnamed/part_008, second section): the
  two-engine route selection (`calculateBestRoute`) and the via-warehouse
  two-leg combination (`calculateRouteViaWarehouse`).
* `app/page.tsx`: the per-engineer enrichment pipeline (`enrichedNfos`).

Modelling conventions:

* JavaScript numbers that only ever hold finite values are modelled as `ℚ`;
  where the code distinguishes non-finite values (`Number.isFinite`) the
  type `JSNum` is used.  Nullable numbers are `Option ℚ`.
* The floating-point haversine evaluation is transcendental, so code that
  merely *consumes* distances (route selection, enrichment) is
  parameterised by a distance oracle (`hav`, `dist`) standing for the
  `haversineKm` / `calculateDistanceKm` calls.  The haversine formula
  itself is embedded over `ℝ` (`calculateDistanceKm`, `haversineKm`) and
  the geometric claims are settled against that real-valued embedding.
* The two network fetches (`fetchOrsRoute`, `fetchOsrmRoute`) return
  `Option EngineFetchResult`; their values are inputs of the embedding.
* JavaScript string helpers (`trim`, `toLowerCase`) are embedded as
  structural functions over the character list of a string (`jsTrim`,
  `jsToLower`); the identifiers in this data model are ASCII.
-/

namespace NfoTracker

/-! ### JavaScript numbers and the label formatter (nfoHelpers.ts) -/

/-- A JavaScript `number` as seen by `Number.isFinite`:
either a finite value (modelled as `ℚ`) or one of `NaN`, `±Infinity`. -/
inductive JSNum where
  | fin (q : ℚ)
  | nan
  | posInf
  | negInf
deriving DecidableEq

/-- `Number.isFinite` on a `JSNum`. -/
def jsIsFinite : JSNum → Bool
  | .fin _ => true
  | _ => false

/-- The finite value carried by a `JSNum` (all uses below are guarded by
`jsIsFinite`, mirroring the code paths). -/
def JSNum.toQ : JSNum → ℚ
  | .fin q => q
  | _ => 0

/-- Two-digit zero padding for a fractional part. -/
def pad2 (n : ℤ) : String :=
  if n < 10 then "0" ++ toString n else toString n

/-- JavaScript `x.toFixed(2)` for a nonnegative finite number:
round to the nearest hundredth, print with exactly two decimals. -/
def toFixed2 (q : ℚ) : String :=
  let n : ℤ := ⌊q * 100 + 1 / 2⌋
  toString (n / 100) ++ "." ++ pad2 (n % 100)

/-- JavaScript `x.toFixed(1)` for a nonnegative finite number. -/
def toFixed1 (q : ℚ) : String :=
  let n : ℤ := ⌊q * 10 + 1 / 2⌋
  toString (n / 10) ++ "." ++ toString (n % 10)

/-- From `app/lib/nfoHelpers.ts` (src/unnamed/part_008 lines 687-691):

```
export function formatDistanceLabel(distanceKm: number): string {
  if (!Number.isFinite(distanceKm)) return "N/A";
  if (distanceKm > 200) return ">200 km (check site GPS or NFO GPS)";
  return `\x7bdistanceKm.toFixed(2)\x7d km`;
}
``` -/
def formatDistanceLabel (distanceKm : JSNum) : String :=
  if jsIsFinite distanceKm = false then "N/A"
  else if distanceKm.toQ > 200 then ">200 km (check site GPS or NFO GPS)"
  else toFixed2 distanceKm.toQ ++ " km"

/-! ### JavaScript string helpers -/

/-- Whitespace test used by JavaScript `trim` (the identifiers in this
data model only carry ASCII whitespace). -/
def isJsSpace (c : Char) : Bool :=
  c = ' ' || c = '\t' || c = '\n' || c = '\r'

/-- JavaScript `s.trim()` over the character-list model of strings. -/
def jsTrim (s : String) : String :=
  ⟨((s.data.dropWhile isJsSpace).reverse.dropWhile isJsSpace).reverse⟩

/-- JavaScript `s.toLowerCase()` (ASCII data). -/
def jsToLower (s : String) : String :=
  ⟨s.data.map Char.toLower⟩

/-! ### Geo primitives over `ℝ` (nfoHelpers.ts / routing.ts) -/

/-- A latitude/longitude pair whose components are known non-null, as
consumed by `calculateDistanceKm` (which dereferences `a.lat!` etc.). -/
structure GeoPoint where
  lat : ℝ
  lng : ℝ

-- JavaScript `Math.atan2` on real numbers.
open Classical in
noncomputable def atan2 (y x : ℝ) : ℝ :=
  if 0 < x then Real.arctan (y / x)
  else if x < 0 ∧ 0 ≤ y then Real.arctan (y / x) + Real.pi
  else if x < 0 ∧ y < 0 then Real.arctan (y / x) - Real.pi
  else if x = 0 ∧ 0 < y then Real.pi / 2
  else if x = 0 ∧ y < 0 then -(Real.pi / 2)
  else 0

/-- Haversine distance from `app/lib/nfoHelpers.ts`
(src/unnamed/part_008 lines 634-651), over `ℝ`. -/
noncomputable def calculateDistanceKm (a b : GeoPoint) : ℝ :=
  let R : ℝ := 6371
  let dLat := (b.lat - a.lat) * Real.pi / 180
  let dLng := (b.lng - a.lng) * Real.pi / 180
  let lat1 := a.lat * Real.pi / 180
  let lat2 := b.lat * Real.pi / 180
  let sinDLat := Real.sin (dLat / 2)
  let sinDLng := Real.sin (dLng / 2)
  let aa := sinDLat * sinDLat + Real.cos lat1 * Real.cos lat2 * (sinDLng * sinDLng)
  let c := 2 * atan2 (Real.sqrt aa) (Real.sqrt (1 - aa))
  R * c

/-- Haversine distance from `app/lib/routing.ts`
(src/unnamed/part_008 lines 95-111), over `ℝ`; identical formula on four
scalars. -/
noncomputable def haversineKm (lat1 lon1 lat2 lon2 : ℝ) : ℝ :=
  let R : ℝ := 6371
  let dLat := (lat2 - lat1) * Real.pi / 180
  let dLon := (lon2 - lon1) * Real.pi / 180
  let a := Real.sin (dLat / 2) * Real.sin (dLat / 2) +
    Real.cos (lat1 * Real.pi / 180) * Real.cos (lat2 * Real.pi / 180) *
      (Real.sin (dLon / 2) * Real.sin (dLon / 2))
  let c := 2 * atan2 (Real.sqrt a) (Real.sqrt (1 - a))
  R * c

/-! ### Route selection (`app/lib/routing.ts`) -/

/-- `export const ROUTE_SANITY_RATIO_THRESHOLD = 2.0` (routing.ts line 75). -/
def ROUTE_SANITY_RATIO_THRESHOLD : ℚ := 2

/-- `type RouteEngine = "ors" | "osrm"` (routing.ts line 78). -/
inductive RouteEngine where
  | ors
  | osrm
deriving DecidableEq

/-- The successful payload of `fetchOrsRoute` / `fetchOsrmRoute`
(routing.ts lines 117-186); a failed fetch is `none`. -/
structure EngineFetchResult where
  distanceKm : ℚ
  durationMin : ℚ
  coordinates : List (ℚ × ℚ)
deriving DecidableEq

/-- `interface RouteResult` (routing.ts lines 81-89).  The optional fields
`warning?` and `isFallback?` become `Option String` and `Bool`
(an absent `isFallback` is falsy, i.e. `false`). -/
structure RouteResult where
  distanceKm : ℚ
  durationMin : ℚ
  engine : RouteEngine
  coordinates : List (ℚ × ℚ)
  airDistanceKm : ℚ
  warning : Option String
  isFallback : Bool
deriving DecidableEq

/-- The denominator `Math.max(airDistanceKm, 0.001)` used by every
sanity-ratio computation in routing.ts (lines 237, 238, 293, 434, 546). -/
def sanityDenom (airDistanceKm : ℚ) : ℚ := max airDistanceKm (1 / 1000)

/-- The warning template of routing.ts lines 297 and 438:
`Driving distance is X km vs straight-line Y km. ...` with both numbers
printed via `toFixed(1)`. -/
def routeWarningMsg (finalKm airDistanceKm : ℚ) : String :=
  "Driving distance is " ++ toFixed1 finalKm ++ " km vs straight-line " ++
    toFixed1 airDistanceKm ++ " km. Map data may be inaccurate in this area."

/-- The fallback warning of routing.ts lines 288 and 398. -/
def fallbackWarning : String :=
  "Could not calculate driving route. Showing straight-line distance."

/-- Step 5 of `calculateBestRoute` (routing.ts lines 248-290): pick the
final (distance, duration, coordinates, engine) or `none` when both
engines failed.  The OSRM result replaces the ORS one only when it is
strictly shorter and its sanity ratio is at most the threshold. -/
def chooseEngine (airDistanceKm : ℚ) (orsResult osrmResult : Option EngineFetchResult) :
    Option (ℚ × ℚ × List (ℚ × ℚ) × RouteEngine) :=
  match orsResult, osrmResult with
  | some o, some s =>
      if s.distanceKm < o.distanceKm ∧
          s.distanceKm / sanityDenom airDistanceKm ≤ ROUTE_SANITY_RATIO_THRESHOLD then
        some (s.distanceKm, s.durationMin, s.coordinates, .osrm)
      else
        some (o.distanceKm, o.durationMin, o.coordinates, .ors)
  | some o, none => some (o.distanceKm, o.durationMin, o.coordinates, .ors)
  | none, some s => some (s.distanceKm, s.durationMin, s.coordinates, .osrm)
  | none, none => none

/-- `calculateBestRoute` (routing.ts lines 200-316).  `hav` is the
floating-point `haversineKm` abstracted as an oracle; the two engine
results stand for the awaited `fetchOrsRoute` / `fetchOsrmRoute` values. -/
def calculateBestRoute (hav : ℚ → ℚ → ℚ → ℚ → ℚ)
    (startLat startLon endLat endLon : ℚ)
    (orsResult osrmResult : Option EngineFetchResult) : RouteResult :=
  let airDistanceKm := hav startLat startLon endLat endLon
  let coords : List (ℚ × ℚ) := [(startLon, startLat), (endLon, endLat)]
  match chooseEngine airDistanceKm orsResult osrmResult with
  | none =>
      { distanceKm := airDistanceKm
        durationMin := 0
        engine := .ors
        coordinates := coords
        airDistanceKm := airDistanceKm
        warning := some fallbackWarning
        isFallback := true }
  | some (finalKm, finalMin, finalCoords, finalEngine) =>
      { distanceKm := finalKm
        durationMin := finalMin
        engine := finalEngine
        coordinates := finalCoords
        airDistanceKm := airDistanceKm
        warning :=
          if finalKm / sanityDenom airDistanceKm > ROUTE_SANITY_RATIO_THRESHOLD then
            some (routeWarningMsg finalKm airDistanceKm)
          else none
        isFallback := false }

/-- The closeness test of routing.ts lines 417-419: the two points agree
within `0.0001` degrees in both components. -/
def coordsClose (p q : ℚ × ℚ) : Prop :=
  |p.1 - q.1| < 1 / 10000 ∧ |p.2 - q.2| < 1 / 10000

instance (p q : ℚ × ℚ) : Decidable (coordsClose p q) :=
  inferInstanceAs (Decidable (_ ∧ _))

/-- The coordinate combination of routing.ts lines 407-427: concatenate
leg 1 with leg 2, dropping the first point of leg 2 when it coincides with
the last point of leg 1 (a missing last point of leg 1 makes the test
falsy). -/
def combineLegCoords (leg1Coords leg2Coords : List (ℚ × ℚ)) : List (ℚ × ℚ) :=
  match leg2Coords with
  | [] => leg1Coords
  | leg2Start :: rest =>
    match leg1Coords.getLast? with
    | some leg1End =>
        if coordsClose leg1End leg2Start then leg1Coords ++ rest
        else leg1Coords ++ (leg2Start :: rest)
    | none => leg1Coords ++ (leg2Start :: rest)

/-- `interface MultiLegRouteResult extends RouteResult` (routing.ts
lines 321-323). -/
structure MultiLegRouteResult extends RouteResult where
  legs : List RouteResult
deriving DecidableEq

/-- `calculateRouteViaWarehouse` (routing.ts lines 345-468).  Each leg is a
full `calculateBestRoute`; the four engine results are the fetch outcomes
of leg 1 and leg 2. -/
def calculateRouteViaWarehouse (hav : ℚ → ℚ → ℚ → ℚ → ℚ)
    (nfoLat nfoLon warehouseLat warehouseLon siteLat siteLon : ℚ)
    (ors1 osrm1 ors2 osrm2 : Option EngineFetchResult) : MultiLegRouteResult :=
  let directNfoSiteKm := hav nfoLat nfoLon siteLat siteLon
  let leg1 := calculateBestRoute hav nfoLat nfoLon warehouseLat warehouseLon ors1 osrm1
  let leg2 := calculateBestRoute hav warehouseLat warehouseLon siteLat siteLon ors2 osrm2
  if leg1.isFallback && leg2.isFallback then
    { distanceKm := leg1.airDistanceKm + leg2.airDistanceKm
      durationMin := 0
      engine := .ors
      coordinates := [(nfoLon, nfoLat), (warehouseLon, warehouseLat), (siteLon, siteLat)]
      airDistanceKm := directNfoSiteKm
      warning := some fallbackWarning
      isFallback := true
      legs := [leg1, leg2] }
  else
    let totalKm := leg1.distanceKm + leg2.distanceKm
    let totalMin := leg1.durationMin + leg2.durationMin
    let combinedCoordinates := combineLegCoords leg1.coordinates leg2.coordinates
    let engine : RouteEngine :=
      if leg1.engine = .ors ∧ leg2.engine = .ors then .ors else .osrm
    let overallWarning : Option String :=
      if totalKm / sanityDenom directNfoSiteKm > ROUTE_SANITY_RATIO_THRESHOLD then
        some (routeWarningMsg totalKm directNfoSiteKm)
      else none
    let legWarnings := [leg1.warning, leg2.warning].filterMap id
    let warning : Option String :=
      match overallWarning with
      | some w => some w
      | none =>
          if legWarnings.length > 0 then some (String.intercalate " " legWarnings)
          else none
    { distanceKm := totalKm
      durationMin := totalMin
      engine := engine
      coordinates := combinedCoordinates
      airDistanceKm := directNfoSiteKm
      warning := warning
      isFallback := false
      legs := [leg1, leg2] }

/-! ### Data model of the enrichment pipeline (`app/page.tsx`) -/

/-- A possibly-null latitude/longitude pair (`LatLng` of nfoHelpers.ts). -/
structure QPoint where
  lat : Option ℚ
  lng : Option ℚ
deriving DecidableEq

/-- `hasValidLocation` (nfoHelpers.ts lines 624-628): both components are
non-null; finiteness is automatic for `ℚ`. -/
def hasValidLocation (loc : QPoint) : Bool :=
  loc.lat.isSome && loc.lng.isSome

/-- `SiteRecord` (nfoHelpers.ts lines 598-604). -/
structure SiteRecord where
  site_id : String
  name : Option String
  latitude : Option ℚ
  longitude : Option ℚ
deriving DecidableEq

/-- `WarehouseRecord` as loaded in `app/page.tsx` lines 874-885: every row
of the warehouse table is kept, the active flag is stored but not
filtered on. -/
structure WarehouseRecord where
  id : ℤ
  name : String
  region : Option String
  latitude : Option ℚ
  longitude : Option ℚ
  is_active : Bool
deriving DecidableEq

/-- The engineer-status row fields consumed by the enrichment pipeline
(`NfoStatusRow` plus `via_warehouse`, `warehouse_name`; page.tsx line 807). -/
structure NfoRow where
  username : String
  on_shift : Option Bool
  status : Option String
  site_id : Option String
  lat : Option ℚ
  lng : Option ℚ
  via_warehouse : Bool
  warehouse_name : Option String
deriving DecidableEq

/-- `getSiteById` (nfoHelpers.ts lines 697-708): case-insensitive,
whitespace-trimmed lookup; falsy ids (null or empty) yield `null`. -/
def getSiteById (sites : List SiteRecord) (siteId : Option String) : Option SiteRecord :=
  match siteId with
  | none => none
  | some sid =>
      if sid = "" then none
      else
        let normalizedId := jsToLower (jsTrim sid)
        sites.find? (fun s =>
          (!(s.site_id == "")) && (jsToLower (jsTrim s.site_id) == normalizedId))

/-- `findNearestSite` (nfoHelpers.ts lines 657-680) with the haversine
call abstracted as `dist`: linear scan over sites with valid coordinates,
keeping the strictly smaller distance (first seen wins on ties). -/
def findNearestSite (dist : QPoint → QPoint → ℚ) (nfoLoc : QPoint)
    (sites : List SiteRecord) : Option (SiteRecord × ℚ) :=
  if hasValidLocation nfoLoc = false then none
  else
    sites.foldl
      (fun best site =>
        let siteLoc : QPoint := ⟨site.latitude, site.longitude⟩
        if hasValidLocation siteLoc = false then best
        else
          let d := dist nfoLoc siteLoc
          match best with
          | none => some (site, d)
          | some (_, bestD) => if d < bestD then some (site, d) else best)
      none

/-- `namesMatch` (page.tsx lines 1059-1062): falsy (null or empty) names
never match; otherwise compare trimmed, lower-cased strings. -/
def namesMatch (a b : String) : Bool :=
  if a = "" || b = "" then false
  else jsToLower (jsTrim a) == jsToLower (jsTrim b)

/-- The four assignment-state flags. -/
structure AssignmentState where
  isBusy : Bool
  isFree : Bool
  isOnShift : Bool
  isOffShift : Bool
deriving DecidableEq

/-- Modelled from the spec: `computeAssignmentState` lives in
`app/lib/nfoHelpers.ts`, but the helper-file snapshot in the repository
predates it (only its import and call sites in `app/page.tsx` are
visible).  Spec section 4.3: `isOnShift` mirrors the raw on-shift flag,
`isBusy` / `isFree` are exact string matches of the status tag against
`"busy"` / `"free"`, and `isOffShift` is the negation of `isOnShift`. -/
def computeAssignmentState (row : NfoRow) : AssignmentState :=
  { isBusy := row.status == some "busy"
    isFree := row.status == some "free"
    isOnShift := row.on_shift.getD false
    isOffShift := !(row.on_shift.getD false) }

/-- The distance/label fields of an enriched engineer row
(page.tsx lines 1175-1194; the online/ping fields are omitted, no claim
mentions them). -/
structure EnrichedNfo where
  nearestSiteId : Option String
  nearestSiteName : Option String
  nearestSiteDistanceKm : Option ℚ
  distanceToAssignedSiteKm : Option ℚ
  airDistanceKm : Option ℚ
  distanceLabel : String
  siteLabel : String
  isBusy : Bool
  isFree : Bool
deriving DecidableEq

/-- page.tsx lines 1084-1096: distance to the assigned site, `null` unless
the engineer has valid coordinates, a non-empty trimmed `site_id`, and the
looked-up site has valid coordinates. -/
def distanceToAssignedSite (dist : QPoint → QPoint → ℚ) (sites : List SiteRecord)
    (nfo : NfoRow) : Option ℚ :=
  let nfoLoc : QPoint := ⟨nfo.lat, nfo.lng⟩
  let assignedSiteId := jsTrim (nfo.site_id.getD "")
  if assignedSiteId ≠ "" ∧ hasValidLocation nfoLoc = true then
    match getSiteById sites (some assignedSiteId) with
    | some assignedSite =>
        if hasValidLocation ⟨assignedSite.latitude, assignedSite.longitude⟩ then
          some (dist nfoLoc ⟨assignedSite.latitude, assignedSite.longitude⟩)
        else none
    | none => none
  else none

/-- page.tsx lines 1098-1122: nearest site and the two labels, as the
tuple (nearestSiteId, nearestSiteName, nearestSiteDistanceKm,
distanceLabel, siteLabel). -/
def nfoLabels (dist : QPoint → QPoint → ℚ) (sites : List SiteRecord)
    (nfo : NfoRow) : Option String × Option String × Option ℚ × String × String :=
  let st := computeAssignmentState nfo
  let nfoLoc : QPoint := ⟨nfo.lat, nfo.lng⟩
  let assignedSiteId := jsTrim (nfo.site_id.getD "")
  let busyLabelDistance : String :=
    match distanceToAssignedSite dist sites nfo with
    | some d => formatDistanceLabel (.fin d)
    | none => "N/A"
  match findNearestSite dist nfoLoc sites with
  | some (siteRec, nearKm) =>
      let distanceLabel := formatDistanceLabel (.fin nearKm)
      let siteLabel :=
        if st.isBusy = true ∧ assignedSiteId ≠ "" then
          "Busy at site " ++ assignedSiteId ++ " - " ++ busyLabelDistance
        else if st.isFree = true ∧ nfo.on_shift = some true then
          "Free near site " ++ siteRec.site_id ++ " - " ++ distanceLabel
        else
          "Nearest site " ++ siteRec.site_id ++ " - " ++ distanceLabel
      (some siteRec.site_id, siteRec.name, some nearKm, distanceLabel, siteLabel)
  | none =>
      if hasValidLocation nfoLoc = false then
        (none, none, none, "N/A", "No GPS")
      else if st.isBusy = true ∧ assignedSiteId ≠ "" then
        (none, none, none, "N/A",
          "Busy at site " ++ assignedSiteId ++ " - N/A (missing coordinates)")
      else
        (none, none, none, "N/A", "N/A")

/-- page.tsx lines 1124-1166: the reported air distance.  The target site
is the assigned site when it resolves, else the nearest site.  When the
`via_warehouse` flag is set and the stored warehouse name (trimmed,
non-empty) matches a warehouse with valid coordinates — `find?` over ALL
loaded warehouses, the active flag is not consulted — the distance is the
sum of the two legs through that warehouse. -/
def airDistance (dist : QPoint → QPoint → ℚ) (sites : List SiteRecord)
    (warehouses : List WarehouseRecord) (nfo : NfoRow) : Option ℚ :=
  let nfoLoc : QPoint := ⟨nfo.lat, nfo.lng⟩
  let assignedSiteId := jsTrim (nfo.site_id.getD "")
  if hasValidLocation nfoLoc = true then
    let targetSite : Option SiteRecord :=
      match (if assignedSiteId ≠ "" then getSiteById sites (some assignedSiteId) else none) with
      | some t => some t
      | none =>
          match findNearestSite dist nfoLoc sites with
          | some (siteRec, _) => some siteRec
          | none => none
    match targetSite with
    | some t =>
        if hasValidLocation ⟨t.latitude, t.longitude⟩ then
          let sitePoint : QPoint := ⟨t.latitude, t.longitude⟩
          let warehouseNameTrimmed := jsTrim (nfo.warehouse_name.getD "")
          let matchingWarehouse : Option WarehouseRecord :=
            if nfo.via_warehouse = true ∧ warehouseNameTrimmed ≠ "" then
              warehouses.find? (fun w =>
                namesMatch w.name warehouseNameTrimmed &&
                  hasValidLocation ⟨w.latitude, w.longitude⟩)
            else none
          match matchingWarehouse with
          | some w =>
              let whPoint : QPoint := ⟨w.latitude, w.longitude⟩
              some (dist nfoLoc whPoint + dist whPoint sitePoint)
          | none => some (dist nfoLoc sitePoint)
        else none
    | none => none
  else none

/-- The enrichment of one engineer row (`enrichedNfos` of page.tsx
lines 1057-1196, distance and label fields). -/
def enrichNfo (dist : QPoint → QPoint → ℚ) (sites : List SiteRecord)
    (warehouses : List WarehouseRecord) (nfo : NfoRow) : EnrichedNfo :=
  let labels := nfoLabels dist sites nfo
  { nearestSiteId := labels.1
    nearestSiteName := labels.2.1
    nearestSiteDistanceKm := labels.2.2.1
    distanceToAssignedSiteKm := distanceToAssignedSite dist sites nfo
    airDistanceKm := airDistance dist sites warehouses nfo
    distanceLabel := labels.2.2.2.1
    siteLabel := labels.2.2.2.2
    isBusy := (computeAssignmentState nfo).isBusy
    isFree := (computeAssignmentState nfo).isFree }

/-- `RoutePlanner.tsx` line 193: the route-planner view (and only that
view) restricts to active warehouses. -/
def activeWarehouses (warehouses : List WarehouseRecord) : List WarehouseRecord :=
  warehouses.filter (fun w => w.is_active)

/-! ### Concrete data used by witnesses and counterexamples -/

/-- A concrete stand-in for the haversine oracle on the three collinear
demo points with latitudes 0 (engineer), 1 (warehouse) and 2 (site):
the legs measure 3 km and 4 km, the direct hop 5 km (a triangle-inequality
consistent assignment, as actual haversine values would be). -/
def havDemo (aLat _aLon bLat _bLon : ℚ) : ℚ :=
  if aLat = 0 ∧ bLat = 1 then 3
  else if aLat = 1 ∧ bLat = 2 then 4
  else if aLat = 0 ∧ bLat = 2 then 5
  else 0

/-- A 6 km driving result for leg 1 of the demo route. -/
def demoOrs1 : EngineFetchResult := ⟨6, 10, [((0 : ℚ), (0 : ℚ)), ((0 : ℚ), (1 : ℚ))]⟩

/-- A 6 km driving result for leg 2 of the demo route. -/
def demoOrs2 : EngineFetchResult := ⟨6, 10, [((0 : ℚ), (1 : ℚ)), ((0 : ℚ), (2 : ℚ))]⟩

/-- A distance oracle for the warehouse-enrichment scenario: 1 km from the
engineer (latitude 0) to the warehouse (latitude 1), 1 km from the
warehouse to the site (latitude 2), 4 km direct. -/
def demoDist : QPoint → QPoint → ℚ :=
  fun p q =>
    if p.lat = some 0 ∧ q.lat = some 1 then 1
    else if p.lat = some 1 ∧ q.lat = some 2 then 1
    else if p.lat = some 0 ∧ q.lat = some 2 then 4
    else 0

/-- A warehouse whose `is_active` flag is `false`, with valid coordinates
and a name that matches `" main wh "` after trimming and lower-casing. -/
def demoWarehouse : WarehouseRecord := ⟨1, "Main WH", none, some 1, some 0, false⟩

/-- The site assigned to the via-warehouse demo engineer. -/
def demoSite : SiteRecord := ⟨"S1", none, some 2, some 0⟩

/-- A busy engineer with valid coordinates, a via-warehouse flag and a
stored warehouse name differing from the table entry in case and
whitespace only. -/
def demoNfoVia : NfoRow :=
  ⟨"e1", some true, some "busy", some "S1", some 0, some 0, true, some " main wh "⟩

/-- Site table for the missing-coordinates scenario: the assigned site
`S1` has no coordinates, while `S2` has valid ones. -/
def demoSites : List SiteRecord :=
  [⟨"S1", none, none, none⟩, ⟨"S2", none, some 1, some 1⟩]

/-- A busy engineer with valid coordinates assigned to `S1`. -/
def demoNfoBusy : NfoRow :=
  ⟨"e2", some true, some "busy", some "S1", some 0, some 0, false, none⟩

/-- A busy engineer with a null latitude, i.e. no valid own coordinates. -/
def demoNfoNoGps : NfoRow :=
  ⟨"e3", some true, some "busy", some "S1", none, some 0, false, none⟩

/-! ### Shared lemmas -/

lemma sin_sq_neg (x : ℝ) : Real.sin (-x) * Real.sin (-x) = Real.sin x * Real.sin x := by
  rw [Real.sin_neg]; ring

/-- The haversine of a point with itself is exactly zero, already in the
real-valued model: identical endpoints make the air distance 0, which is
why the `0.001` clamp inside `sanityDenom` matters. -/
lemma haversineKm_self (lat lon : ℝ) : haversineKm lat lon lat lon = 0 := by
  simp only [haversineKm, sub_self, zero_mul, zero_div, Real.sin_zero, mul_zero,
    zero_add, add_zero, Real.sqrt_zero, sub_zero, Real.sqrt_one]
  rw [atan2, if_pos one_pos, zero_div, Real.arctan_zero]
  ring

lemma combineLegCoords_drop (l1 l2 : List (ℚ × ℚ)) (p q : ℚ × ℚ)
    (h1 : l1.getLast? = some p) (h2 : l2.head? = some q) (hc : coordsClose p q) :
    combineLegCoords l1 l2 = l1 ++ l2.tail := by
  cases l2 with
  | nil => simp at h2
  | cons a rest =>
    simp only [List.head?_cons, Option.some.injEq] at h2
    subst h2
    simp [combineLegCoords, h1, if_pos hc]

lemma combineLegCoords_keep (l1 l2 : List (ℚ × ℚ))
    (h : ∀ p q, l1.getLast? = some p → l2.head? = some q → ¬ coordsClose p q) :
    combineLegCoords l1 l2 = l1 ++ l2 := by
  cases l2 with
  | nil => simp [combineLegCoords]
  | cons a rest =>
    cases hl : l1.getLast? with
    | none => simp [combineLegCoords, hl]
    | some p => simp [combineLegCoords, hl, if_neg (h p a hl rfl)]

/-- Leg 1 of the demo via-warehouse route evaluates to a 6 km ORS result
over a 3 km air distance, with no warning (ratio exactly 2). -/
lemma demoLeg1_eval : calculateBestRoute havDemo 0 0 1 0 (some demoOrs1) none =
    ⟨6, 10, RouteEngine.ors, [(0, 0), (0, 1)], 3, none, false⟩ := by
  simp only [calculateBestRoute, chooseEngine, havDemo, demoOrs1]
  norm_num [sanityDenom, ROUTE_SANITY_RATIO_THRESHOLD]

/-- Leg 2 of the demo via-warehouse route evaluates to a 6 km ORS result
over a 4 km air distance, with no warning. -/
lemma demoLeg2_eval : calculateBestRoute havDemo 1 0 2 0 (some demoOrs2) none =
    ⟨6, 10, RouteEngine.ors, [(0, 1), (0, 2)], 4, none, false⟩ := by
  simp only [calculateBestRoute, chooseEngine, havDemo, demoOrs2]
  norm_num [sanityDenom, ROUTE_SANITY_RATIO_THRESHOLD]

/-! ### Claims -/

/-- C1: the spec (and the repository's own threshold-removal audit
documents) say `formatDistanceLabel` renders every finite distance with
two decimals and a `km` suffix, e.g. `350.00 km` for 350, with no upper
threshold.  The helper actually shipped in `app/lib/nfoHelpers.ts`
(src/unnamed/part_008 lines 687-691) still contains the 200 km threshold
branch: at the failing input 350 it returns the threshold warning string,
not `"350.00 km"`.  The non-finite branch behaves as claimed. -/
theorem formatDistanceLabel_350_eval :
    formatDistanceLabel (.fin 350) = ">200 km (check site GPS or NFO GPS)"
    ∧ formatDistanceLabel .nan = "N/A" :=
  ⟨by decide, by decide⟩

/-- C2 counterexample: with identical endpoints the air distance is 0
(`haversineKm_self`), and an OSRM result of 0.002 km against an ORS
result of 0.003 km is still selected although 0.002 km exceeds
`2.0 ×` the air distance (`2 × 0 = 0`) — the code divides by
`max(air, 0.001)`, not by the raw air distance, so the claimed
"rejected even if shorter" bound does not hold as stated. -/
theorem calculateBestRoute_switch_above_twice_air_cex :
    (calculateBestRoute (fun _ _ _ _ => 0) 0 0 0 0
        (some ⟨3 / 1000, 1, [((0 : ℚ), (0 : ℚ)), ((0 : ℚ), (0 : ℚ))]⟩)
        (some ⟨2 / 1000, 1, [((0 : ℚ), (0 : ℚ)), ((0 : ℚ), (0 : ℚ))]⟩)).engine =
      RouteEngine.osrm
    ∧ ¬ ((2 / 1000 : ℚ) ≤ ROUTE_SANITY_RATIO_THRESHOLD * 0) := by
  constructor
  · simp only [calculateBestRoute, chooseEngine]
    rw [if_pos]
    constructor
    · norm_num
    · rw [sanityDenom, max_eq_right (by norm_num), ROUTE_SANITY_RATIO_THRESHOLD]
      norm_num
  · rw [ROUTE_SANITY_RATIO_THRESHOLD]
    norm_num

/-- C2 (amended): when ORS returned a usable result, the result switches
to OSRM exactly when OSRM also returned a usable result, its distance is
strictly shorter, and its distance divided by `max(air, 0.001)` is at most
the 2.0 threshold (so the boundary at exactly ratio 2.0 is accepted and
anything above is rejected); whichever engine is selected contributes its
own distance, duration and coordinates; and when ORS failed but OSRM
succeeded, OSRM's result is used. -/
theorem calculateBestRoute_selection_rule (hav : ℚ → ℚ → ℚ → ℚ → ℚ)
    (startLat startLon endLat endLon : ℚ) (o s : EngineFetchResult) :
    ((calculateBestRoute hav startLat startLon endLat endLon (some o) (some s)).engine =
        RouteEngine.osrm ↔
      s.distanceKm < o.distanceKm ∧
        s.distanceKm / sanityDenom (hav startLat startLon endLat endLon) ≤
          ROUTE_SANITY_RATIO_THRESHOLD)
    ∧ ((calculateBestRoute hav startLat startLon endLat endLon (some o) (some s)).engine =
          RouteEngine.osrm →
        (calculateBestRoute hav startLat startLon endLat endLon (some o) (some s)).distanceKm =
            s.distanceKm ∧
          (calculateBestRoute hav startLat startLon endLat endLon (some o)
              (some s)).durationMin = s.durationMin ∧
          (calculateBestRoute hav startLat startLon endLat endLon (some o)
              (some s)).coordinates = s.coordinates)
    ∧ ((calculateBestRoute hav startLat startLon endLat endLon (some o) (some s)).engine =
          RouteEngine.ors →
        (calculateBestRoute hav startLat startLon endLat endLon (some o) (some s)).distanceKm =
            o.distanceKm ∧
          (calculateBestRoute hav startLat startLon endLat endLon (some o)
              (some s)).durationMin = o.durationMin ∧
          (calculateBestRoute hav startLat startLon endLat endLon (some o)
              (some s)).coordinates = o.coordinates)
    ∧ ((calculateBestRoute hav startLat startLon endLat endLon none (some s)).engine =
          RouteEngine.osrm ∧
        (calculateBestRoute hav startLat startLon endLat endLon none (some s)).distanceKm =
            s.distanceKm ∧
          (calculateBestRoute hav startLat startLon endLat endLon none (some s)).isFallback =
            false) := by
  by_cases hc : s.distanceKm < o.distanceKm ∧
      s.distanceKm / sanityDenom (hav startLat startLon endLat endLon) ≤
        ROUTE_SANITY_RATIO_THRESHOLD
  · simp [calculateBestRoute, chooseEngine, hc]
  · simp [calculateBestRoute, chooseEngine, hc]

/-- C2 witness: the spec's own vector — air 10 km, ORS 11 km,
OSRM 9.5 km (ratio 0.95) — makes the selection rule pick OSRM. -/
theorem calculateBestRoute_selection_rule_witness :
    (calculateBestRoute (fun _ _ _ _ => 10) 0 0 0 0
        (some ⟨11, 12, [((0 : ℚ), (0 : ℚ))]⟩)
        (some ⟨19 / 2, 9, [((1 : ℚ), (1 : ℚ))]⟩)).engine = RouteEngine.osrm := by
  have h := calculateBestRoute_selection_rule (fun _ _ _ _ => 10) 0 0 0 0
    ⟨11, 12, [((0 : ℚ), (0 : ℚ))]⟩ ⟨19 / 2, 9, [((1 : ℚ), (1 : ℚ))]⟩
  refine h.1.mpr ⟨by norm_num, ?_⟩
  rw [sanityDenom, max_eq_left (by norm_num), ROUTE_SANITY_RATIO_THRESHOLD]
  norm_num

/-- C3: when both engines fail, the result is flagged as fallback, its
path is the straight line through the two endpoints only, its distance
equals the air distance, its duration is zero and the explanatory warning
is present. -/
theorem calculateBestRoute_both_fail_fallback (hav : ℚ → ℚ → ℚ → ℚ → ℚ)
    (startLat startLon endLat endLon : ℚ) :
    (calculateBestRoute hav startLat startLon endLat endLon none none).isFallback = true
    ∧ (calculateBestRoute hav startLat startLon endLat endLon none none).coordinates =
        [(startLon, startLat), (endLon, endLat)]
    ∧ (calculateBestRoute hav startLat startLon endLat endLon none none).distanceKm =
        (calculateBestRoute hav startLat startLon endLat endLon none none).airDistanceKm
    ∧ (calculateBestRoute hav startLat startLon endLat endLon none none).airDistanceKm =
        hav startLat startLon endLat endLon
    ∧ (calculateBestRoute hav startLat startLon endLat endLon none none).durationMin = 0
    ∧ (calculateBestRoute hav startLat startLon endLat endLon none none).warning =
        some fallbackWarning := by
  simp [calculateBestRoute, chooseEngine]

/-- C4 counterexample: with identical endpoints (air distance 0) a winning
distance of 0.0005 km exceeds `2.0 ×` the air distance, yet no warning is
attached, because the code compares the ratio against
`max(air, 0.001)` rather than the raw air distance. -/
theorem calculateBestRoute_no_warning_above_twice_air_cex :
    (calculateBestRoute (fun _ _ _ _ => 0) 0 0 0 0
        (some ⟨1 / 2000, 1, [((0 : ℚ), (0 : ℚ)), ((0 : ℚ), (0 : ℚ))]⟩) none).isFallback = false
    ∧ (calculateBestRoute (fun _ _ _ _ => 0) 0 0 0 0
        (some ⟨1 / 2000, 1, [((0 : ℚ), (0 : ℚ)), ((0 : ℚ), (0 : ℚ))]⟩) none).warning = none
    ∧ (calculateBestRoute (fun _ _ _ _ => 0) 0 0 0 0
          (some ⟨1 / 2000, 1, [((0 : ℚ), (0 : ℚ)), ((0 : ℚ), (0 : ℚ))]⟩) none).distanceKm >
        ROUTE_SANITY_RATIO_THRESHOLD *
          (calculateBestRoute (fun _ _ _ _ => 0) 0 0 0 0
            (some ⟨1 / 2000, 1, [((0 : ℚ), (0 : ℚ)), ((0 : ℚ), (0 : ℚ))]⟩) none).airDistanceKm := by
  refine ⟨rfl, ?_, ?_⟩
  · simp only [calculateBestRoute, chooseEngine]
    rw [if_neg]
    rw [sanityDenom, max_eq_right (by norm_num), ROUTE_SANITY_RATIO_THRESHOLD]
    norm_num
  · simp only [calculateBestRoute, chooseEngine, ROUTE_SANITY_RATIO_THRESHOLD]
    norm_num

/-- C4 (amended): for every non-fallback result, the warning is attached
exactly when the winning distance divided by `max(air, 0.001)` exceeds the
2.0 threshold; the attached warning is the template quoting both the
winning distance and the air distance (each via `toFixed(1)`); and the
selected distance, duration, coordinates and engine are returned unchanged
either way. -/
theorem calculateBestRoute_warning_rule (hav : ℚ → ℚ → ℚ → ℚ → ℚ)
    (startLat startLon endLat endLon : ℚ)
    (orsResult osrmResult : Option EngineFetchResult)
    (finalKm finalMin : ℚ) (finalCoords : List (ℚ × ℚ)) (finalEngine : RouteEngine)
    (hch : chooseEngine (hav startLat startLon endLat endLon) orsResult osrmResult =
      some (finalKm, finalMin, finalCoords, finalEngine)) :
    (calculateBestRoute hav startLat startLon endLat endLon orsResult osrmResult).isFallback =
        false
    ∧ (calculateBestRoute hav startLat startLon endLat endLon orsResult osrmResult).distanceKm =
        finalKm
    ∧ (calculateBestRoute hav startLat startLon endLat endLon orsResult osrmResult).durationMin =
        finalMin
    ∧ (calculateBestRoute hav startLat startLon endLat endLon orsResult osrmResult).coordinates =
        finalCoords
    ∧ (calculateBestRoute hav startLat startLon endLat endLon orsResult osrmResult).engine =
        finalEngine
    ∧ (calculateBestRoute hav startLat startLon endLat endLon orsResult
          osrmResult).airDistanceKm = hav startLat startLon endLat endLon
    ∧ ((calculateBestRoute hav startLat startLon endLat endLon orsResult osrmResult).warning =
          some (routeWarningMsg finalKm (hav startLat startLon endLat endLon)) ↔
        finalKm / sanityDenom (hav startLat startLon endLat endLon) >
          ROUTE_SANITY_RATIO_THRESHOLD)
    ∧ ((calculateBestRoute hav startLat startLon endLat endLon orsResult osrmResult).warning =
          none ↔
        ¬ finalKm / sanityDenom (hav startLat startLon endLat endLon) >
          ROUTE_SANITY_RATIO_THRESHOLD)
    ∧ (∃ pre mid suf,
        routeWarningMsg finalKm (hav startLat startLon endLat endLon) =
          pre ++ toFixed1 finalKm ++ mid ++
            toFixed1 (hav startLat startLon endLat endLon) ++ suf) := by
  by_cases hw : finalKm / sanityDenom (hav startLat startLon endLat endLon) >
      ROUTE_SANITY_RATIO_THRESHOLD
  · simp [calculateBestRoute, hch, hw]
    exact ⟨"Driving distance is ", " km vs straight-line ",
      " km. Map data may be inaccurate in this area.", rfl⟩
  · simp [calculateBestRoute, hch, hw]
    exact ⟨"Driving distance is ", " km vs straight-line ",
      " km. Map data may be inaccurate in this area.", rfl⟩

/-- C4 witness: air 1 km, winning distance 5 km (ratio 5) — the warning
quoting both numbers is attached. -/
theorem calculateBestRoute_warning_rule_witness :
    (calculateBestRoute (fun _ _ _ _ => 1) 0 0 0 0
        (some ⟨5, 7, [((2 : ℚ), (3 : ℚ))]⟩) none).warning = some (routeWarningMsg 5 1) := by
  have h := calculateBestRoute_warning_rule (fun _ _ _ _ => 1) 0 0 0 0
    (some ⟨5, 7, [((2 : ℚ), (3 : ℚ))]⟩) none 5 7 [((2 : ℚ), (3 : ℚ))] RouteEngine.ors rfl
  refine h.2.2.2.2.2.2.1.mpr ?_
  rw [sanityDenom, max_eq_left (by norm_num), ROUTE_SANITY_RATIO_THRESHOLD]
  norm_num

/-- C5 counterexample: on the demo via-warehouse route the per-leg air
distances are 3 km and 4 km (sum 7 km) while the direct engineer-to-site
air distance is 5 km.  The code reports `airDistanceKm = 5` (the direct
distance, not the 7 km sum) and attaches the over-threshold warning based
on `12 / 5 > 2`, although against the claimed sum-of-legs baseline
`12 ≤ 2 × 7` would produce no warning. -/
theorem viaWarehouse_direct_baseline_cex :
    (calculateRouteViaWarehouse havDemo 0 0 1 0 2 0
        (some demoOrs1) none (some demoOrs2) none).airDistanceKm = 5
    ∧ (calculateRouteViaWarehouse havDemo 0 0 1 0 2 0
          (some demoOrs1) none (some demoOrs2) none).legs.map
        (fun leg => leg.airDistanceKm) = [3, 4]
    ∧ (calculateRouteViaWarehouse havDemo 0 0 1 0 2 0
          (some demoOrs1) none (some demoOrs2) none).distanceKm = 12
    ∧ (calculateRouteViaWarehouse havDemo 0 0 1 0 2 0
          (some demoOrs1) none (some demoOrs2) none).warning =
        some (routeWarningMsg 12 5)
    ∧ ¬ ((12 : ℚ) / sanityDenom (3 + 4) > ROUTE_SANITY_RATIO_THRESHOLD) := by
  refine ⟨?_, ?_, ?_, ?_, ?_⟩
  · simp only [calculateRouteViaWarehouse, demoLeg1_eval, demoLeg2_eval, havDemo]
    norm_num
  · simp only [calculateRouteViaWarehouse, demoLeg1_eval, demoLeg2_eval, havDemo]
    norm_num
  · simp only [calculateRouteViaWarehouse, demoLeg1_eval, demoLeg2_eval, havDemo]
    norm_num
  · simp only [calculateRouteViaWarehouse, demoLeg1_eval, demoLeg2_eval, havDemo]
    norm_num [sanityDenom, ROUTE_SANITY_RATIO_THRESHOLD, combineLegCoords]
  · rw [sanityDenom, max_eq_left (by norm_num), ROUTE_SANITY_RATIO_THRESHOLD]
    norm_num

/-- C5 (amended): for a via-warehouse route the sanity baseline — both the
`airDistanceKm` reported in the result (in the fallback and non-fallback
branches alike) and the denominator of the over-threshold warning check —
is the direct engineer-to-site air distance, not the sum of the per-leg
air distances. -/
theorem viaWarehouse_air_baseline (hav : ℚ → ℚ → ℚ → ℚ → ℚ)
    (nfoLat nfoLon warehouseLat warehouseLon siteLat siteLon : ℚ)
    (ors1 osrm1 ors2 osrm2 : Option EngineFetchResult) :
    (calculateRouteViaWarehouse hav nfoLat nfoLon warehouseLat warehouseLon siteLat siteLon
        ors1 osrm1 ors2 osrm2).airDistanceKm = hav nfoLat nfoLon siteLat siteLon
    ∧ ((calculateRouteViaWarehouse hav nfoLat nfoLon warehouseLat warehouseLon siteLat siteLon
          ors1 osrm1 ors2 osrm2).isFallback = false →
        (calculateRouteViaWarehouse hav nfoLat nfoLon warehouseLat warehouseLon siteLat siteLon
            ors1 osrm1 ors2 osrm2).distanceKm /
            sanityDenom (hav nfoLat nfoLon siteLat siteLon) >
          ROUTE_SANITY_RATIO_THRESHOLD →
        (calculateRouteViaWarehouse hav nfoLat nfoLon warehouseLat warehouseLon siteLat siteLon
            ors1 osrm1 ors2 osrm2).warning =
          some (routeWarningMsg
            (calculateRouteViaWarehouse hav nfoLat nfoLon warehouseLat warehouseLon siteLat
              siteLon ors1 osrm1 ors2 osrm2).distanceKm
            (hav nfoLat nfoLon siteLat siteLon))) := by
  by_cases hb : ((calculateBestRoute hav nfoLat nfoLon warehouseLat warehouseLon ors1
      osrm1).isFallback &&
      (calculateBestRoute hav warehouseLat warehouseLon siteLat siteLon ors2
        osrm2).isFallback) = true
  · constructor
    · simp [calculateRouteViaWarehouse, hb]
    · intro hf
      exfalso
      simp [calculateRouteViaWarehouse, hb] at hf
  · rw [Bool.not_eq_true] at hb
    constructor
    · simp [calculateRouteViaWarehouse, hb]
    · intro _ hgt
      simp only [calculateRouteViaWarehouse, hb, Bool.false_eq_true, if_false] at hgt ⊢
      rw [if_pos hgt]

/-- C5 witness: on the demo route the non-fallback, over-threshold case of
the baseline rule produces the direct-distance warning. -/
theorem viaWarehouse_air_baseline_witness :
    (calculateRouteViaWarehouse havDemo 0 0 1 0 2 0
        (some demoOrs1) none (some demoOrs2) none).warning =
      some (routeWarningMsg
        (calculateRouteViaWarehouse havDemo 0 0 1 0 2 0
          (some demoOrs1) none (some demoOrs2) none).distanceKm
        (havDemo 0 0 2 0)) := by
  have h := viaWarehouse_air_baseline havDemo 0 0 1 0 2 0
    (some demoOrs1) none (some demoOrs2) none
  refine h.2 ?_ ?_
  · simp [calculateRouteViaWarehouse, demoLeg1_eval, demoLeg2_eval]
  · have hd : (calculateRouteViaWarehouse havDemo 0 0 1 0 2 0
        (some demoOrs1) none (some demoOrs2) none).distanceKm = 12 := by
      simp only [calculateRouteViaWarehouse, demoLeg1_eval, demoLeg2_eval]
      norm_num
    rw [hd, havDemo]
    rw [sanityDenom]
    norm_num [max_eq_left, ROUTE_SANITY_RATIO_THRESHOLD]

/-- C6: for a two-leg route where at least one leg succeeded, the combined
engine label is the primary engine exactly when both legs carry the
primary engine label, and the combined coordinates are leg 1 followed by
leg 2, with the first point of leg 2 dropped exactly when it coincides
with the last point of leg 1 within 0.0001 degrees in both components. -/
theorem viaWarehouse_engine_and_coords (hav : ℚ → ℚ → ℚ → ℚ → ℚ)
    (nfoLat nfoLon warehouseLat warehouseLon siteLat siteLon : ℚ)
    (ors1 osrm1 ors2 osrm2 : Option EngineFetchResult)
    (hnf : ((calculateBestRoute hav nfoLat nfoLon warehouseLat warehouseLon ors1
        osrm1).isFallback &&
        (calculateBestRoute hav warehouseLat warehouseLon siteLat siteLon ors2
          osrm2).isFallback) = false) :
    ((calculateRouteViaWarehouse hav nfoLat nfoLon warehouseLat warehouseLon siteLat siteLon
          ors1 osrm1 ors2 osrm2).engine = RouteEngine.ors ↔
      ((calculateBestRoute hav nfoLat nfoLon warehouseLat warehouseLon ors1 osrm1).engine =
          RouteEngine.ors ∧
        (calculateBestRoute hav warehouseLat warehouseLon siteLat siteLon ors2 osrm2).engine =
          RouteEngine.ors))
    ∧ (∀ p q,
        (calculateBestRoute hav nfoLat nfoLon warehouseLat warehouseLon ors1
            osrm1).coordinates.getLast? = some p →
        (calculateBestRoute hav warehouseLat warehouseLon siteLat siteLon ors2
            osrm2).coordinates.head? = some q →
        coordsClose p q →
        (calculateRouteViaWarehouse hav nfoLat nfoLon warehouseLat warehouseLon siteLat siteLon
            ors1 osrm1 ors2 osrm2).coordinates =
          (calculateBestRoute hav nfoLat nfoLon warehouseLat warehouseLon ors1
              osrm1).coordinates ++
            (calculateBestRoute hav warehouseLat warehouseLon siteLat siteLon ors2
                osrm2).coordinates.tail)
    ∧ ((∀ p q,
        (calculateBestRoute hav nfoLat nfoLon warehouseLat warehouseLon ors1
            osrm1).coordinates.getLast? = some p →
        (calculateBestRoute hav warehouseLat warehouseLon siteLat siteLon ors2
            osrm2).coordinates.head? = some q →
        ¬ coordsClose p q) →
        (calculateRouteViaWarehouse hav nfoLat nfoLon warehouseLat warehouseLon siteLat siteLon
            ors1 osrm1 ors2 osrm2).coordinates =
          (calculateBestRoute hav nfoLat nfoLon warehouseLat warehouseLon ors1
              osrm1).coordinates ++
            (calculateBestRoute hav warehouseLat warehouseLon siteLat siteLon ors2
                osrm2).coordinates) := by
  refine ⟨?_, ?_, ?_⟩
  · by_cases he : ((calculateBestRoute hav nfoLat nfoLon warehouseLat warehouseLon ors1
        osrm1).engine = RouteEngine.ors ∧
        (calculateBestRoute hav warehouseLat warehouseLon siteLat siteLon ors2 osrm2).engine =
          RouteEngine.ors)
    · simp [calculateRouteViaWarehouse, hnf, he]
    · simp [calculateRouteViaWarehouse, hnf, he]
  · intro p q hp hq hc
    simp only [calculateRouteViaWarehouse, hnf, Bool.false_eq_true, if_false]
    exact combineLegCoords_drop _ _ p q hp hq hc
  · intro h
    simp only [calculateRouteViaWarehouse, hnf, Bool.false_eq_true, if_false]
    exact combineLegCoords_keep _ _ h

/-- C6 witness: two successful legs meeting exactly at the waypoint
`(1, 1)` combine into a path with the duplicate vertex dropped. -/
theorem viaWarehouse_engine_and_coords_witness :
    (calculateRouteViaWarehouse (fun _ _ _ _ => 1) 0 0 1 1 2 2
        (some ⟨2, 3, [((0 : ℚ), (0 : ℚ)), ((1 : ℚ), (1 : ℚ))]⟩) none
        (some ⟨2, 3, [((1 : ℚ), (1 : ℚ)), ((2 : ℚ), (2 : ℚ))]⟩) none).coordinates =
      [((0 : ℚ), (0 : ℚ)), ((1 : ℚ), (1 : ℚ)), ((2 : ℚ), (2 : ℚ))] := by
  have h := viaWarehouse_engine_and_coords (fun _ _ _ _ => 1) 0 0 1 1 2 2
    (some ⟨2, 3, [((0 : ℚ), (0 : ℚ)), ((1 : ℚ), (1 : ℚ))]⟩) none
    (some ⟨2, 3, [((1 : ℚ), (1 : ℚ)), ((2 : ℚ), (2 : ℚ))]⟩) none rfl
  have h2 := h.2.1 ((1 : ℚ), (1 : ℚ)) ((1 : ℚ), (1 : ℚ)) rfl rfl
    (by constructor <;> norm_num)
  rw [h2]
  rfl

/-- C7 counterexample: the demo warehouse has `is_active = false` (the
route planner's active-only filter would drop it), yet the enrichment
pipeline matches it by name and reports the 2 km sum of legs through it
instead of the 4 km direct distance — inactive warehouses do participate
in the enrichment matching. -/
theorem enrich_inactive_warehouse_cex :
    demoWarehouse.is_active = false
    ∧ (enrichNfo demoDist [demoSite] [demoWarehouse] demoNfoVia).airDistanceKm = some 2
    ∧ (enrichNfo demoDist [demoSite] [] demoNfoVia).airDistanceKm = some 4
    ∧ activeWarehouses [demoWarehouse] = [] := by
  refine ⟨rfl, ?_, by decide, by decide⟩
  have h : (enrichNfo demoDist [demoSite] [demoWarehouse] demoNfoVia).airDistanceKm =
      some (1 + 1) := rfl
  rw [h]
  norm_num

/-- C7 (amended): when an engineer has the via-warehouse flag, a valid own
position, an assigned site resolving (case-insensitively, trimmed) to a
site with valid coordinates, and a stored warehouse name matching a
warehouse with valid coordinates — the match is case-insensitive and
whitespace-trimmed but ignores the active flag — the reported air distance
is the sum of the engineer-to-warehouse and warehouse-to-site legs. -/
theorem enrich_viaWarehouse_sum_legs (dist : QPoint → QPoint → ℚ) (sites : List SiteRecord)
    (warehouses : List WarehouseRecord) (nfo : NfoRow) (w : WarehouseRecord) (t : SiteRecord)
    (hval : hasValidLocation ⟨nfo.lat, nfo.lng⟩ = true)
    (hvia : nfo.via_warehouse = true)
    (hwname : jsTrim (nfo.warehouse_name.getD "") ≠ "")
    (hfind : warehouses.find? (fun wh =>
        namesMatch wh.name (jsTrim (nfo.warehouse_name.getD "")) &&
          hasValidLocation ⟨wh.latitude, wh.longitude⟩) = some w)
    (hsid : jsTrim (nfo.site_id.getD "") ≠ "")
    (hsite : getSiteById sites (some (jsTrim (nfo.site_id.getD ""))) = some t)
    (htval : hasValidLocation ⟨t.latitude, t.longitude⟩ = true) :
    (enrichNfo dist sites warehouses nfo).airDistanceKm =
      some (dist ⟨nfo.lat, nfo.lng⟩ ⟨w.latitude, w.longitude⟩ +
        dist ⟨w.latitude, w.longitude⟩ ⟨t.latitude, t.longitude⟩) := by
  simp only [enrichNfo, airDistance, hval, if_pos hsid, hsite, htval, if_true,
    if_pos (And.intro hvia hwname), hfind]

/-- C7 witness: the demo engineer's stored name `" main wh "` matches the
table entry `"Main WH"` after trimming and lower-casing, and the reported
distance is the 1 km + 1 km sum of legs. -/
theorem enrich_viaWarehouse_sum_legs_witness :
    (enrichNfo demoDist [demoSite] [demoWarehouse] demoNfoVia).airDistanceKm = some 2 := by
  have h := enrich_viaWarehouse_sum_legs demoDist [demoSite] [demoWarehouse] demoNfoVia
    demoWarehouse demoSite (by decide) (by decide) (by decide) (by decide) (by decide)
    (by decide) (by decide)
  rw [h]
  have h1 : demoDist ⟨demoNfoVia.lat, demoNfoVia.lng⟩
      ⟨demoWarehouse.latitude, demoWarehouse.longitude⟩ = 1 := by decide
  have h2 : demoDist ⟨demoWarehouse.latitude, demoWarehouse.longitude⟩
      ⟨demoSite.latitude, demoSite.longitude⟩ = 1 := by decide
  rw [h1, h2]
  norm_num

/-- C8 counterexample: the busy demo engineer has valid coordinates and an
assigned site `S1` that exists with null coordinates, and the table also
holds `S2` with valid coordinates.  The dashboard enrichment
(`app/page.tsx`) labels this `Busy at site S1 - N/A` — the distance is
null as claimed, but the label does not state "missing coordinates". -/
theorem enrich_busy_missing_coords_cex :
    (enrichNfo (fun _ _ => 7) demoSites [] demoNfoBusy).isBusy = true
    ∧ (enrichNfo (fun _ _ => 7) demoSites [] demoNfoBusy).distanceToAssignedSiteKm = none
    ∧ (enrichNfo (fun _ _ => 7) demoSites [] demoNfoBusy).siteLabel = "Busy at site S1 - N/A"
    ∧ "Busy at site S1 - N/A" ≠ "Busy at site S1 - N/A (missing coordinates)" := by
  decide

/-- C8 (amended): in the dashboard enrichment of `app/page.tsx`, a busy
engineer with valid own coordinates whose assigned site exists but has
invalid coordinates gets a null assigned-site distance and — whenever some
site with valid coordinates exists, so the nearest-site lookup succeeds —
the label `Busy at site <id> - N/A` (the "missing coordinates" wording
appears only when no site with valid coordinates exists at all); an
engineer with no valid own coordinates gets null distances and the label
`No GPS`, regardless of status. -/
theorem enrich_null_distance_labels (dist : QPoint → QPoint → ℚ) (sites : List SiteRecord)
    (warehouses : List WarehouseRecord) (nfo nfo2 : NfoRow)
    (s n : SiteRecord) (nearKm : ℚ)
    (hbusy : (computeAssignmentState nfo).isBusy = true)
    (hval : hasValidLocation ⟨nfo.lat, nfo.lng⟩ = true)
    (hsid : jsTrim (nfo.site_id.getD "") ≠ "")
    (hsite : getSiteById sites (some (jsTrim (nfo.site_id.getD ""))) = some s)
    (hscoords : hasValidLocation ⟨s.latitude, s.longitude⟩ = false)
    (hnear : findNearestSite dist ⟨nfo.lat, nfo.lng⟩ sites = some (n, nearKm))
    (hval2 : hasValidLocation ⟨nfo2.lat, nfo2.lng⟩ = false) :
    (enrichNfo dist sites warehouses nfo).distanceToAssignedSiteKm = none
    ∧ (enrichNfo dist sites warehouses nfo).siteLabel =
        "Busy at site " ++ jsTrim (nfo.site_id.getD "") ++ " - " ++ "N/A"
    ∧ (enrichNfo dist sites warehouses nfo2).distanceToAssignedSiteKm = none
    ∧ (enrichNfo dist sites warehouses nfo2).nearestSiteDistanceKm = none
    ∧ (enrichNfo dist sites warehouses nfo2).airDistanceKm = none
    ∧ (enrichNfo dist sites warehouses nfo2).siteLabel = "No GPS" := by
  have hassigned : distanceToAssignedSite dist sites nfo = none := by
    simp only [distanceToAssignedSite, if_pos (And.intro hsid hval), hsite, hscoords,
      Bool.false_eq_true, if_false]
  have hnear2 : findNearestSite dist ⟨nfo2.lat, nfo2.lng⟩ sites = none := by
    simp only [findNearestSite, hval2, if_pos]
  refine ⟨hassigned, ?_, ?_, ?_, ?_, ?_⟩
  · simp only [enrichNfo, nfoLabels, hnear, hassigned, hbusy, hsid]
    simp [hbusy, hsid]
  · simp only [enrichNfo, distanceToAssignedSite, hval2]
    simp
  · simp [enrichNfo, nfoLabels, hnear2, hval2]
  · simp [enrichNfo, airDistance, hval2]
  · simp [enrichNfo, nfoLabels, hnear2, hval2]

/-- C8 witness: the two demo engineers — busy at the coordinate-less `S1`
with `S2` available, and one without GPS — produce the `Busy at site S1 -
N/A` and `No GPS` labels with null distances. -/
theorem enrich_null_distance_labels_witness :
    (enrichNfo (fun _ _ => 7) demoSites [] demoNfoBusy).siteLabel = "Busy at site S1 - N/A"
    ∧ (enrichNfo (fun _ _ => 7) demoSites [] demoNfoNoGps).siteLabel = "No GPS"
    ∧ (enrichNfo (fun _ _ => 7) demoSites [] demoNfoNoGps).distanceToAssignedSiteKm = none := by
  have h := enrich_null_distance_labels (fun _ _ => 7) demoSites [] demoNfoBusy demoNfoNoGps
    ⟨"S1", none, none, none⟩ ⟨"S2", none, some 1, some 1⟩ 7
    (by decide) (by decide) (by decide) (by decide) (by decide) (by decide) (by decide)
  refine ⟨?_, h.2.2.2.2.2, h.2.2.1⟩
  rw [h.2.1]
  decide

/-- C9 counterexample: the haversine formula returns exactly zero for the
two distinct points `(90, 0)` and `(90, 10)` at the pole (the latitude
cosines vanish), so "zero iff the points are equal" fails. -/
theorem calculateDistanceKm_pole_cex :
    calculateDistanceKm ⟨90, 0⟩ ⟨90, 10⟩ = 0 ∧ (⟨90, 0⟩ : GeoPoint) ≠ ⟨90, 10⟩ := by
  constructor
  · simp only [calculateDistanceKm]
    have h1 : ((90 : ℝ) - 90) * Real.pi / 180 = 0 := by ring
    have h2 : (90 : ℝ) * Real.pi / 180 = Real.pi / 2 := by ring
    rw [h1, h2, Real.cos_pi_div_two]
    simp only [zero_div, Real.sin_zero, mul_zero, zero_mul, zero_add, add_zero,
      Real.sqrt_zero, sub_zero, Real.sqrt_one]
    rw [atan2, if_pos one_pos, zero_div, Real.arctan_zero]
    ring
  · intro h
    have := congrArg GeoPoint.lng h
    norm_num at this

/-- C9 (amended): the haversine distance is symmetric, and the distance
from any point to itself is zero; equality of the points is sufficient but
not necessary for a zero distance. -/
theorem calculateDistanceKm_symm_self (a b : GeoPoint) :
    calculateDistanceKm a b = calculateDistanceKm b a ∧ calculateDistanceKm a a = 0 := by
  constructor
  · simp only [calculateDistanceKm]
    have hlat : (a.lat - b.lat) * Real.pi / 180 / 2 =
        -((b.lat - a.lat) * Real.pi / 180 / 2) := by ring
    have hlng : (a.lng - b.lng) * Real.pi / 180 / 2 =
        -((b.lng - a.lng) * Real.pi / 180 / 2) := by ring
    rw [hlat, hlng, sin_sq_neg, sin_sq_neg,
      mul_comm (Real.cos (b.lat * Real.pi / 180)) (Real.cos (a.lat * Real.pi / 180))]
  · simp only [calculateDistanceKm, sub_self, zero_mul, zero_div, Real.sin_zero, mul_zero,
      zero_add, add_zero, Real.sqrt_zero, sub_zero, Real.sqrt_one]
    rw [atan2, if_pos one_pos, zero_div, Real.arctan_zero]
    ring

/-- C10: the denominator of every sanity-ratio computation in the routing
module is `sanityDenom`, which is bounded below by `0.001` and in
particular strictly positive for every air distance, including the zero
air distance of identical endpoints — no ratio ever divides by zero. -/
theorem sanityDenom_pos (airDistanceKm : ℚ) :
    0 < sanityDenom airDistanceKm ∧ (1 / 1000 : ℚ) ≤ sanityDenom airDistanceKm :=
  ⟨lt_of_lt_of_le (by norm_num) (le_max_right _ _), le_max_right _ _⟩

end NfoTracker
